import Mathlib

/-!
# api_deteccion: the HTTP surface of `index.js`

A shallow embedding of the Express application in `index.js`: the token gate
`verificarToken`, the seventeen registered routes, and the store they talk to
through `pool.query`.  The signing, hashing and HTTP-client libraries are
external collaborators and appear as fields of `Env`; the relational store is
modelled by the meaning of the SQL statements that occur in the source.
-/

namespace ApiDeteccion

/-! ## Values, rows, responses -/

/-- A column value or a request-body field in text form.  `none` is SQL `NULL`:
the driver sends a JavaScript `undefined` (a key missing from `req.body`) and
`null` alike as `NULL`. -/
abbrev Val := Option String

/-- A JSON object / a table row: column names with their values, in order. -/
abbrev Row := List (String × Val)

/-- Property access `r[c]`; a missing key reads as `undefined`. -/
def Row.get (r : Row) (c : String) : Val :=
  (List.lookup c r).getD none

/-- What a handler hands to `res.json` / `res.send`. -/
inductive Body where
  /-- An array of rows: `res.json(rows)`. -/
  | rows (rs : List Row)
  /-- The value `rows[0]`: a row, or `undefined` (an empty payload) when the result is empty. -/
  | row (r : Option Row)
  /-- The object `{ message: m }`. -/
  | message (m : String)
  /-- The object `{ error: m }`. -/
  | error (m : String)
  /-- The object `{ token: t }`. -/
  | token (t : String)
  /-- The relayed `response.data` of the detection service. -/
  | relay (j : String)
  /-- A text body: `res.send(html)`. -/
  | html (s : String)
  /-- The framework's own page for a request that no registered route matches. -/
  | unrouted
  deriving DecidableEq, Repr

/-- Status code and body of an HTTP response. -/
structure Response where
  status : Nat
  body : Body
  deriving DecidableEq, Repr

/-- The default status of `res.json(x)` is 200. -/
def Response.json (b : Body) : Response := ⟨200, b⟩

/-- Chained `res.status(s).json(x)`. -/
def Response.statusJson (s : Nat) (b : Body) : Response := ⟨s, b⟩

/-! ## The request and its Authorization header -/

/-- The parts of an incoming request the handlers read.  Path parameters travel
with the route (see `Route`). -/
structure Request where
  /-- The header `req.headers.authorization`, when present. -/
  authorization : Option String
  /-- The parsed JSON body `req.body` (`{}` when none was sent). -/
  body : Row
  /-- The path `req.file.path` of the upload stored by `upload.single('image')`, when a file came. -/
  file : Option String
  deriving DecidableEq, Repr

/-- JavaScript `String.prototype.split` with a one-character separator, on the
characters of the string: every occurrence of the separator cuts, so two
adjacent separators enclose an empty piece and a string without separator is
returned whole, as the only piece. -/
def jsSplit (sep : Char) : List Char → List (List Char)
  | [] => [[]]
  | c :: cs =>
    if c = sep then [] :: jsSplit sep cs
    else
      match jsSplit sep cs with
      | [] => [[c]]
      | w :: ws => (c :: w) :: ws

/-- The expression `req.headers.authorization?.split(' ')[1]` (line 24):
`undefined` when the header is absent or has no second piece. -/
def extractToken (authorization : Option String) : Option String :=
  match authorization with
  | none => none
  | some h => ((jsSplit ' ' h.toList)[1]?).map String.mk

/-- JavaScript truthiness of the extracted token: `!token` holds for `undefined`
and for the empty string. -/
def truthy : Option String → Bool
  | none => false
  | some t => t != ""

/-! ## The store behind `pool.query`

The database is an external collaborator of `index.js`.  This section gives the
statements that occur in the source their SQL meaning on tables held as lists
of rows.  Values are kept and compared in text form; constraint violations,
type errors and connection failures are not derived from the data but reach a
request through `Env.dbError`. -/

/-- The four tables named in the SQL statements of `index.js`. -/
inductive Table where
  | especies
  | usuarios
  | avistamientos
  | imagenes
  deriving DecidableEq, Repr

/-- Modelled from the spec: the columns of each table (§3 and §6; the schema
itself lives in the database, outside `index.js`).  The column names are the
ones the statements of `index.js` mention; `id` is generated by the store in
every table and `fecha_registro` is the registration timestamp of a user. -/
def Table.columns : Table → List String
  | .especies =>
    ["id", "nombre_cientifico", "nombre_comun", "descripcion", "estado_conservacion", "habitat"]
  | .usuarios => ["id", "nombre", "email", "contraseña", "fecha_registro"]
  | .avistamientos =>
    ["id", "id_especie", "id_usuario", "fecha_avistamiento", "ubicacion", "imagen_url",
      "comentarios"]
  | .imagenes => ["id", "id_avistamiento", "url", "metadatos"]

/-- The rows of one table and the next value of its id sequence. -/
structure TableState where
  rows : List Row
  nextId : Nat
  deriving DecidableEq, Repr

/-- The persisted state: four tables and the clock that stamps `fecha_registro`. -/
structure Db where
  especies : TableState
  usuarios : TableState
  avistamientos : TableState
  imagenes : TableState
  now : String
  deriving DecidableEq, Repr

/-- The state of table `t`. -/
def Db.table (db : Db) : Table → TableState
  | .especies => db.especies
  | .usuarios => db.usuarios
  | .avistamientos => db.avistamientos
  | .imagenes => db.imagenes

/-- Replace the state of table `t`. -/
def Db.setTable (db : Db) (t : Table) (s : TableState) : Db :=
  match t with
  | .especies => { db with especies := s }
  | .usuarios => { db with usuarios := s }
  | .avistamientos => { db with avistamientos := s }
  | .imagenes => { db with imagenes := s }

/-- The statements `index.js` sends, with their `$n` parameters bound.  A column
list `none` stands for `*`; a condition list is the conjunction of `col = value`
tests of the `WHERE` clause (empty: no `WHERE`). -/
inductive Query where
  /-- `SELECT cols FROM t [WHERE c₁ = v₁ AND ...]`. -/
  | select (cols : Option (List String)) (t : Table) (cond : List (String × Val))
  /-- `INSERT INTO t (c₁, ...) VALUES (v₁, ...) RETURNING cols`. -/
  | insert (t : Table) (values : List (String × Val)) (returning : Option (List String))
  /-- `UPDATE t SET c₁ = v₁, ... WHERE ... RETURNING cols`. -/
  | update (t : Table) (sets : List (String × Val)) (cond : List (String × Val))
      (returning : Option (List String))
  /-- `DELETE FROM t WHERE ...`. -/
  | delete (t : Table) (cond : List (String × Val))
  deriving DecidableEq, Repr

/-- SQL `a = b` evaluated to true: both sides non-`NULL` and equal. -/
def sqlEq (a b : Val) : Bool :=
  match a, b with
  | some x, some y => x == y
  | _, _ => false

/-- The row passes every `col = value` test of a `WHERE` clause. -/
def Row.satisfies (r : Row) (cond : List (String × Val)) : Bool :=
  cond.all fun cv => sqlEq (r.get cv.1) cv.2

/-- The projection of a row on a column list (`*` keeps the row). -/
def Row.project (cols : Option (List String)) (r : Row) : Row :=
  match cols with
  | none => r
  | some cs => cs.map fun c => (c, r.get c)

/-- The assignments of a `SET` clause applied to a row. -/
def Row.assign (sets : List (String × Val)) (r : Row) : Row :=
  r.map fun cv => (cv.1, (List.lookup cv.1 sets).getD cv.2)

/-- The row an `INSERT` stores: the generated `id`, the listed columns with the
values given, `fecha_registro` stamped by the clock when it is not listed (the
generated timestamp of §3 of the spec), and `NULL` in every other column. -/
def newRow (t : Table) (id : Nat) (now : String) (values : List (String × Val)) : Row :=
  t.columns.map fun c =>
    (c, if c = "id" then some (toString id)
        else match List.lookup c values with
          | some v => v
          | none => if c = "fecha_registro" then some now else none)

/-- The meaning of one statement on the store: the result rows and the new state. -/
def Db.exec (db : Db) : Query → List Row × Db
  | .select cols t cond =>
    (((db.table t).rows.filter fun r => r.satisfies cond).map (Row.project cols), db)
  | .insert t values returning =>
    let s := db.table t
    let r := newRow t s.nextId db.now values
    ([r.project returning], db.setTable t ⟨s.rows ++ [r], s.nextId + 1⟩)
  | .update t sets cond returning =>
    let s := db.table t
    (((s.rows.filter fun r => r.satisfies cond).map fun r => (r.assign sets).project returning),
      db.setTable t ⟨s.rows.map fun r => if r.satisfies cond then r.assign sets else r, s.nextId⟩)
  | .delete t cond =>
    let s := db.table t
    ([], db.setTable t ⟨s.rows.filter fun r => !r.satisfies cond, s.nextId⟩)

/-! ### The text of a statement -/

/-- The name of a table in a statement. -/
def Table.sqlName : Table → String
  | .especies => "especies"
  | .usuarios => "usuarios"
  | .avistamientos => "avistamientos"
  | .imagenes => "imagenes"

/-- A column list as written after `SELECT` or `RETURNING`. -/
def colsSql : Option (List String) → String
  | none => "*"
  | some cs => ", ".intercalate cs

/-- The tests or assignments `col = $n`, numbered from `start` and joined by `sep`. -/
def bindSql (sep : String) (start : Nat) (cvs : List (String × Val)) : String :=
  sep.intercalate (cvs.enum.map fun icv => icv.2.1 ++ " = $" ++ toString (start + icv.1))

/-- The placeholders `$1, ..., $n` of a `VALUES` list. -/
def paramsSql (n : Nat) : String :=
  ", ".intercalate ((List.range n).map fun i => "$" ++ toString (i + 1))

/-- The `WHERE` clause, absent for an empty condition. -/
def whereSql (start : Nat) : List (String × Val) → String
  | [] => ""
  | cond => " WHERE " ++ bindSql " AND " start cond

/-- The parameterized text of a statement, as `index.js` passes it to `pool.query`;
the bound values are the parameter array, in the order of their placeholders. -/
def Query.sql : Query → String
  | .select cols t cond => "SELECT " ++ colsSql cols ++ " FROM " ++ t.sqlName ++ whereSql 1 cond
  | .insert t values returning =>
    "INSERT INTO " ++ t.sqlName ++ " (" ++ ", ".intercalate (values.map fun cv => cv.1) ++
      ") VALUES (" ++ paramsSql values.length ++ ") RETURNING " ++ colsSql returning
  | .update t sets cond returning =>
    "UPDATE " ++ t.sqlName ++ " SET " ++ bindSql ", " 1 sets ++ whereSql (sets.length + 1) cond ++
      " RETURNING " ++ colsSql returning
  | .delete t cond => "DELETE FROM " ++ t.sqlName ++ whereSql 1 cond

/-! ## The environment of a request -/

/-- The collaborators of the process that `index.js` only calls: the signing and
hashing libraries, the detection service behind `axios.post`, the fate of this
request's store round-trip, and the names the runtime binds globally. -/
structure Env where
  /-- The value `process.env.JWT_SECRET_KEY` (line 15), `none` when unset. -/
  secretKey : Option String
  /-- The call `jwt.verify(token, secretKey, cb)`: the error or the decoded claims handed to `cb`. -/
  jwtVerify : String → Option String → Except String Row
  /-- The call `jwt.sign(payload, secretKey, { expiresIn })`: the token, or the error it throws. -/
  jwtSign : Row → Option String → String → Except String String
  /-- The call `bcrypt.compare(data, hash)`: the verdict, or the error it rejects with. -/
  bcryptCompare : Val → Val → Except String Bool
  /-- The error with which this request's `pool.query` rejects, if it does. -/
  dbError : Option String
  /-- The identifiers the runtime defines globally for a module. -/
  globals : List String
  /-- Whether the `FormData` the runtime provides has the method `getHeaders` (the one of the
  `form-data` package has it, the built-in global has not). -/
  formDataGetHeaders : Bool
  /-- The call `axios.post(url, form)`: `response.data` of a 2xx answer, or the rejection
  (network failure, non-2xx status). -/
  axiosPost : String → String → Except String String

/-- What a request did, in order. -/
inductive Event where
  | query (q : Query)
  | jwtVerify (token : String)
  | bcryptCompare (plain hash : Val)
  | jwtSign (payload : Row) (expiresIn : String)
  | axiosPost (url : String)
  deriving DecidableEq, Repr

/-- The response of a request, the store it leaves, the calls it made, and the
claims the middleware stored in `req.user` (if it did). -/
structure Outcome where
  resp : Response
  db : Db
  trace : List Event
  user : Option Row
  deriving DecidableEq, Repr

/-- The call `await pool.query(...)`: rejects with the request's store error and
leaves the store as it was, or runs the statement. -/
def poolQuery (env : Env) (db : Db) (q : Query) : Except String (List Row) × Db :=
  match env.dbError with
  | some e => (.error e, db)
  | none => (.ok (db.exec q).1, (db.exec q).2)

/-- The number of store round-trips in a trace. -/
def queryCount : List Event → Nat
  | [] => 0
  | .query _ :: es => queryCount es + 1
  | _ :: es => queryCount es

/-- An outcome that answers `resp` and leaves `req.user` unset. -/
def Outcome.reply (resp : Response) (db : Db) (trace : List Event) : Outcome :=
  ⟨resp, db, trace, none⟩

/-! ## The token gate (lines 23–38) -/

/-- What the middleware `verificarToken` does with a request: answer it, or call
`next()` after storing the decoded claims in `req.user`. -/
inductive Gate where
  | respond (r : Response)
  | next (user : Row)
  deriving DecidableEq, Repr

/-- The middleware `verificarToken`, with the calls it made.  After the test
`!token` the token is a non-empty string; the `none` branch below it is there
for the types only. -/
def verificarToken (env : Env) (req : Request) : Gate × List Event :=
  let token := extractToken req.authorization
  if !truthy token then
    (.respond (.statusJson 401 (.error "Token no proporcionado")), [])
  else
    match token with
    | none => (.respond (.statusJson 401 (.error "Token no proporcionado")), [])
    | some t =>
      match env.jwtVerify t env.secretKey with
      | .error _ => (.respond (.statusJson 401 (.error "Token inválido")), [.jwtVerify t])
      | .ok decoded => (.next decoded, [.jwtVerify t])

/-! ## The detection endpoint (lines 41–58) -/

/-- The names bound in the module scope of `index.js`: the `require` list
(lines 1–8) and the top-level declarations (lines 11–15 and 23). -/
def moduleScope : List String :=
  ["express", "bodyParser", "pool", "axios", "jwt", "bcrypt", "cors", "multer",
    "app", "port", "upload", "secretKey", "verificarToken"]

/-- Evaluation of a free identifier of a handler: a `ReferenceError` unless the
module or the runtime binds it. -/
def resolve (env : Env) (name : String) : Except String Unit :=
  if name ∈ moduleScope ∨ name ∈ env.globals then .ok ()
  else .error ("ReferenceError: " ++ name ++ " is not defined")

/-- The address the detection handler posts to (line 47). -/
def detectUrl : String := "https://deteccion-especie.onrender.com/detect"

/-- The `try` block of the detection handler: `req.file.path`, `new FormData()`,
`fs.createReadStream(imagePath)`, `formData.getHeaders()`, then the outbound
`axios.post` and its `response.data`; the first statement that throws ends the
block. -/
def detectTry (env : Env) (req : Request) : Except String String × List Event :=
  match req.file with
  | none => (.error "TypeError: Cannot read properties of undefined (reading 'path')", [])
  | some imagePath =>
    match resolve env "FormData" with
    | .error e => (.error e, [])
    | .ok _ =>
      match resolve env "fs" with
      | .error e => (.error e, [])
      | .ok _ =>
        if !env.formDataGetHeaders then
          (.error "TypeError: formData.getHeaders is not a function", [])
        else
          match env.axiosPost detectUrl imagePath with
          | .error e => (.error e, [.axiosPost detectUrl])
          | .ok data => (.ok data, [.axiosPost detectUrl])

/-- The handler of `POST /api/detect`. -/
def detect (env : Env) (db : Db) (req : Request) : Outcome :=
  match detectTry env req with
  | (.ok data, tr) => .reply (.json (.relay data)) db tr
  | (.error _, tr) => .reply (.statusJson 500 (.error "Error al procesar la imagen")) db tr

/-! ## Species (lines 63–111) -/

/-- The body fields of a species, as destructured on lines 76 and 90. -/
def especieFields : List String :=
  ["nombre_cientifico", "nombre_comun", "descripcion", "estado_conservacion", "habitat"]

/-- The pairs `(column, req.body[column])` for a list of destructured fields. -/
def bodyValues (req : Request) (fields : List String) : List (String × Val) :=
  fields.map fun f => (f, req.body.get f)

/-- The handler of `GET /api/especies`, which runs after `verificarToken`. -/
def getEspecies (env : Env) (db : Db) (_req : Request) : Outcome :=
  let q := Query.select none .especies []
  match poolQuery env db q with
  | (.ok rows, db1) => .reply (.json (.rows rows)) db1 [.query q]
  | (.error _, db1) =>
    .reply (.statusJson 500 (.error "Error al obtener especies")) db1 [.query q]

/-- The handler of `POST /api/especies`. -/
def postEspecies (env : Env) (db : Db) (req : Request) : Outcome :=
  let q := Query.insert .especies (bodyValues req especieFields) none
  match poolQuery env db q with
  | (.ok rows, db1) => .reply (.json (.row rows.head?)) db1 [.query q]
  | (.error _, db1) => .reply (.statusJson 500 (.error "Error al crear especie")) db1 [.query q]

/-- The handler of `PUT /api/especies/:id`. -/
def putEspecie (env : Env) (db : Db) (especieId : String) (req : Request) : Outcome :=
  let q := Query.update .especies (bodyValues req especieFields) [("id", some especieId)] none
  match poolQuery env db q with
  | (.ok rows, db1) => .reply (.json (.row rows.head?)) db1 [.query q]
  | (.error _, db1) =>
    .reply (.statusJson 500 (.error ("Error al actualizar especie con ID " ++ especieId))) db1
      [.query q]

/-- The handler of `DELETE /api/especies/:id`. -/
def deleteEspecie (env : Env) (db : Db) (especieId : String) (_req : Request) : Outcome :=
  let q := Query.delete .especies [("id", some especieId)]
  match poolQuery env db q with
  | (.ok _, db1) => .reply (.json (.message "Especie eliminada correctamente")) db1 [.query q]
  | (.error _, db1) =>
    .reply (.statusJson 500 (.error ("Error al eliminar especie con ID " ++ especieId))) db1
      [.query q]

/-! ## Users and login (lines 116–191) -/

/-- The columns the user routes return (lines 118, 157 and 172). -/
def usuarioPublic : List String := ["id", "nombre", "email", "fecha_registro"]

/-- The body fields of a user, as destructured on lines 155 and 170. -/
def usuarioFields : List String := ["nombre", "email", "contraseña"]

/-- The handler of `GET /api/usuarios`. -/
def getUsuarios (env : Env) (db : Db) (_req : Request) : Outcome :=
  let q := Query.select (some usuarioPublic) .usuarios []
  match poolQuery env db q with
  | (.ok rows, db1) => .reply (.json (.rows rows)) db1 [.query q]
  | (.error _, db1) =>
    .reply (.statusJson 500 (.error "Error al obtener usuarios")) db1 [.query q]

/-- The handler of `POST /api/login`. -/
def login (env : Env) (db : Db) (req : Request) : Outcome :=
  let email := req.body.get "email"
  let contrasena := req.body.get "contraseña"
  let q := Query.select none .usuarios [("email", email)]
  let fail (tr : List Event) (db1 : Db) : Outcome :=
    .reply (.statusJson 500 (.error "Error al iniciar sesión")) db1 tr
  match poolQuery env db q with
  | (.error _, db1) => fail [.query q] db1
  | (.ok [], db1) => .reply (.statusJson 400 (.error "Usuario no encontrado")) db1 [.query q]
  | (.ok (usuario :: _), db1) =>
    let hash := usuario.get "contraseña"
    match env.bcryptCompare contrasena hash with
    | .error _ => fail [.query q, .bcryptCompare contrasena hash] db1
    | .ok false =>
      .reply (.statusJson 400 (.error "Contraseña incorrecta")) db1
        [.query q, .bcryptCompare contrasena hash]
    | .ok true =>
      let payload : Row := [("id", usuario.get "id"), ("email", usuario.get "email")]
      match env.jwtSign payload env.secretKey "1h" with
      | .error _ => fail [.query q, .bcryptCompare contrasena hash, .jwtSign payload "1h"] db1
      | .ok token =>
        .reply (.json (.token token)) db1
          [.query q, .bcryptCompare contrasena hash, .jwtSign payload "1h"]

/-- The handler of `POST /api/usuarios`. -/
def postUsuarios (env : Env) (db : Db) (req : Request) : Outcome :=
  let q := Query.insert .usuarios (bodyValues req usuarioFields) (some usuarioPublic)
  match poolQuery env db q with
  | (.ok rows, db1) => .reply (.json (.row rows.head?)) db1 [.query q]
  | (.error _, db1) => .reply (.statusJson 500 (.error "Error al crear usuario")) db1 [.query q]

/-- The handler of `PUT /api/usuarios/:id`. -/
def putUsuario (env : Env) (db : Db) (usuarioId : String) (req : Request) : Outcome :=
  let q := Query.update .usuarios (bodyValues req usuarioFields) [("id", some usuarioId)]
    (some usuarioPublic)
  match poolQuery env db q with
  | (.ok rows, db1) => .reply (.json (.row rows.head?)) db1 [.query q]
  | (.error _, db1) =>
    .reply (.statusJson 500 (.error ("Error al actualizar usuario con ID " ++ usuarioId))) db1
      [.query q]

/-- The handler of `DELETE /api/usuarios/:id`. -/
def deleteUsuario (env : Env) (db : Db) (usuarioId : String) (_req : Request) : Outcome :=
  let q := Query.delete .usuarios [("id", some usuarioId)]
  match poolQuery env db q with
  | (.ok _, db1) => .reply (.json (.message "Usuario eliminado correctamente")) db1 [.query q]
  | (.error _, db1) =>
    .reply (.statusJson 500 (.error ("Error al eliminar usuario con ID " ++ usuarioId))) db1
      [.query q]

/-! ## Sightings (lines 197–245) -/

/-- The body fields of a sighting, as destructured on lines 210 and 224. -/
def avistamientoFields : List String :=
  ["id_especie", "id_usuario", "fecha_avistamiento", "ubicacion", "imagen_url", "comentarios"]

/-- The handler of `GET /api/avistamientos`. -/
def getAvistamientos (env : Env) (db : Db) (_req : Request) : Outcome :=
  let q := Query.select none .avistamientos []
  match poolQuery env db q with
  | (.ok rows, db1) => .reply (.json (.rows rows)) db1 [.query q]
  | (.error _, db1) =>
    .reply (.statusJson 500 (.error "Error al obtener avistamientos")) db1 [.query q]

/-- The handler of `POST /api/avistamientos`. -/
def postAvistamientos (env : Env) (db : Db) (req : Request) : Outcome :=
  let q := Query.insert .avistamientos (bodyValues req avistamientoFields) none
  match poolQuery env db q with
  | (.ok rows, db1) => .reply (.json (.row rows.head?)) db1 [.query q]
  | (.error _, db1) =>
    .reply (.statusJson 500 (.error "Error al crear avistamiento")) db1 [.query q]

/-- The handler of `PUT /api/avistamientos/:id`. -/
def putAvistamiento (env : Env) (db : Db) (avistamientoId : String) (req : Request) : Outcome :=
  let q := Query.update .avistamientos (bodyValues req avistamientoFields)
    [("id", some avistamientoId)] none
  match poolQuery env db q with
  | (.ok rows, db1) => .reply (.json (.row rows.head?)) db1 [.query q]
  | (.error _, db1) =>
    .reply
      (.statusJson 500 (.error ("Error al actualizar avistamiento con ID " ++ avistamientoId)))
      db1 [.query q]

/-- The handler of `DELETE /api/avistamientos/:id`. -/
def deleteAvistamiento (env : Env) (db : Db) (avistamientoId : String) (_req : Request) :
    Outcome :=
  let q := Query.delete .avistamientos [("id", some avistamientoId)]
  match poolQuery env db q with
  | (.ok _, db1) =>
    .reply (.json (.message "Avistamiento eliminado correctamente")) db1 [.query q]
  | (.error _, db1) =>
    .reply
      (.statusJson 500 (.error ("Error al eliminar avistamiento con ID " ++ avistamientoId)))
      db1 [.query q]

/-! ## Images of a sighting (lines 250–290) -/

/-- The handler of `GET /api/avistamientos/:avistamientoId/imagenes`. -/
def getImagenes (env : Env) (db : Db) (avistamientoId : String) (_req : Request) : Outcome :=
  let q := Query.select none .imagenes [("id_avistamiento", some avistamientoId)]
  match poolQuery env db q with
  | (.ok rows, db1) => .reply (.json (.rows rows)) db1 [.query q]
  | (.error _, db1) =>
    .reply
      (.statusJson 500
        (.error ("Error al obtener imágenes del avistamiento con ID " ++ avistamientoId)))
      db1 [.query q]

/-- The handler of `POST /api/avistamientos/:avistamientoId/imagenes`. -/
def postImagenes (env : Env) (db : Db) (avistamientoId : String) (req : Request) : Outcome :=
  let q := Query.insert .imagenes
    (("id_avistamiento", some avistamientoId) :: bodyValues req ["url", "metadatos"]) none
  match poolQuery env db q with
  | (.ok rows, db1) => .reply (.json (.row rows.head?)) db1 [.query q]
  | (.error _, db1) =>
    .reply
      (.statusJson 500
        (.error ("Error al crear imagen para el avistamiento con ID " ++ avistamientoId)))
      db1 [.query q]

/-- The handler of `DELETE /api/avistamientos/:avistamientoId/imagenes/:imagenId`. -/
def deleteImagen (env : Env) (db : Db) (avistamientoId imagenId : String) (_req : Request) :
    Outcome :=
  let q := Query.delete .imagenes
    [("id", some imagenId), ("id_avistamiento", some avistamientoId)]
  match poolQuery env db q with
  | (.ok _, db1) => .reply (.json (.message "Imagen eliminada correctamente")) db1 [.query q]
  | (.error _, db1) =>
    .reply
      (.statusJson 500
        (.error ("Error al eliminar imagen con ID " ++ imagenId ++ " del avistamiento con ID "
          ++ avistamientoId)))
      db1 [.query q]

/-! ## The banner (lines 292–302) -/

/-- The template literal `htmlResponse` of line 293. -/
def htmlResponse : String :=
  "\n    <html>\n        <head>\n        <title>Inicio</title>\n        </head>\n" ++
  "        <body><h1>Proyecto backend</h1></body>\n    </html>\n    "

/-- The handler of `GET /`. -/
def root (_env : Env) (db : Db) (_req : Request) : Outcome :=
  .reply ⟨200, .html htmlResponse⟩ db []

/-! ## Routing -/

/-- The routes registered on `app`, in source order, with their path parameters. -/
inductive Route where
  | detect
  | getEspecies
  | postEspecies
  | putEspecie (id : String)
  | deleteEspecie (id : String)
  | getUsuarios
  | login
  | postUsuarios
  | putUsuario (id : String)
  | deleteUsuario (id : String)
  | getAvistamientos
  | postAvistamientos
  | putAvistamiento (id : String)
  | deleteAvistamiento (id : String)
  | getImagenes (avistamientoId : String)
  | postImagenes (avistamientoId : String)
  | deleteImagen (avistamientoId imagenId : String)
  | root
  deriving DecidableEq, Repr

/-- Whether the registration of the route lists `verificarToken` before the handler. -/
def Route.gated : Route → Bool
  | .getEspecies => true
  | _ => false

/-- The handler function registered for a route. -/
def handlerOf (env : Env) (db : Db) (req : Request) : Route → Outcome
  | .detect => detect env db req
  | .getEspecies => getEspecies env db req
  | .postEspecies => postEspecies env db req
  | .putEspecie id => putEspecie env db id req
  | .deleteEspecie id => deleteEspecie env db id req
  | .getUsuarios => getUsuarios env db req
  | .login => login env db req
  | .postUsuarios => postUsuarios env db req
  | .putUsuario id => putUsuario env db id req
  | .deleteUsuario id => deleteUsuario env db id req
  | .getAvistamientos => getAvistamientos env db req
  | .postAvistamientos => postAvistamientos env db req
  | .putAvistamiento id => putAvistamiento env db id req
  | .deleteAvistamiento id => deleteAvistamiento env db id req
  | .getImagenes sid => getImagenes env db sid req
  | .postImagenes sid => postImagenes env db sid req
  | .deleteImagen sid iid => deleteImagen env db sid iid req
  | .root => root env db req

/-- A request served by a registered route: `verificarToken` first where the route is
registered with it (the handler runs only after `next()`), then the handler. -/
def serve (env : Env) (db : Db) (r : Route) (req : Request) : Outcome :=
  if r.gated then
    match verificarToken env req with
    | (.respond resp, tr) => .reply resp db tr
    | (.next decoded, tr) =>
      let o := handlerOf env db req r
      ⟨o.resp, o.db, tr ++ o.trace, some decoded⟩
  else handlerOf env db req r

/-- The request methods the application registers routes for. -/
inductive Method where
  | GET
  | POST
  | PUT
  | DELETE
  deriving DecidableEq, Repr

/-- The route matching a method and the segments of a path, following the
`app.METHOD(path, ...)` registrations; a `:name` segment matches any one
segment. -/
def dispatch : Method → List String → Option Route
  | .POST, ["api", "detect"] => some .detect
  | .GET, ["api", "especies"] => some .getEspecies
  | .POST, ["api", "especies"] => some .postEspecies
  | .PUT, ["api", "especies", id] => some (.putEspecie id)
  | .DELETE, ["api", "especies", id] => some (.deleteEspecie id)
  | .GET, ["api", "usuarios"] => some .getUsuarios
  | .POST, ["api", "login"] => some .login
  | .POST, ["api", "usuarios"] => some .postUsuarios
  | .PUT, ["api", "usuarios", id] => some (.putUsuario id)
  | .DELETE, ["api", "usuarios", id] => some (.deleteUsuario id)
  | .GET, ["api", "avistamientos"] => some .getAvistamientos
  | .POST, ["api", "avistamientos"] => some .postAvistamientos
  | .PUT, ["api", "avistamientos", id] => some (.putAvistamiento id)
  | .DELETE, ["api", "avistamientos", id] => some (.deleteAvistamiento id)
  | .GET, ["api", "avistamientos", sid, "imagenes"] => some (.getImagenes sid)
  | .POST, ["api", "avistamientos", sid, "imagenes"] => some (.postImagenes sid)
  | .DELETE, ["api", "avistamientos", sid, "imagenes", iid] => some (.deleteImagen sid iid)
  | .GET, [] => some .root
  | _, _ => none

/-- The application: the matching route serves the request; when none matches,
the framework answers 404 and no handler of `index.js` runs. -/
def app (env : Env) (db : Db) (m : Method) (path : List String) (req : Request) : Outcome :=
  match dispatch m path with
  | some r => serve env db r req
  | none => .reply ⟨404, .unrouted⟩ db []

/-! ## Observations on outcomes -/

/-- The number of credential comparisons in a trace. -/
def compareCount : List Event → Nat
  | [] => 0
  | .bcryptCompare _ _ :: es => compareCount es + 1
  | _ :: es => compareCount es

/-- The number of tokens signed in a trace. -/
def signCount : List Event → Nat
  | [] => 0
  | .jwtSign _ _ :: es => signCount es + 1
  | _ :: es => signCount es

/-- The routes whose handler calls `pool.query`: all but the detection proxy and the banner. -/
def Route.queriesStore : Route → Bool
  | .detect => false
  | .root => false
  | _ => true

/-- The text of the `catch` block of each store route, read off the source: a
constant for the routes without path parameter, and the template literal with
the path parameters filled in for the others. -/
def storeErrorMessage : Route → String
  | .detect => ""
  | .getEspecies => "Error al obtener especies"
  | .postEspecies => "Error al crear especie"
  | .putEspecie id => "Error al actualizar especie con ID " ++ id
  | .deleteEspecie id => "Error al eliminar especie con ID " ++ id
  | .getUsuarios => "Error al obtener usuarios"
  | .login => "Error al iniciar sesión"
  | .postUsuarios => "Error al crear usuario"
  | .putUsuario id => "Error al actualizar usuario con ID " ++ id
  | .deleteUsuario id => "Error al eliminar usuario con ID " ++ id
  | .getAvistamientos => "Error al obtener avistamientos"
  | .postAvistamientos => "Error al crear avistamiento"
  | .putAvistamiento id => "Error al actualizar avistamiento con ID " ++ id
  | .deleteAvistamiento id => "Error al eliminar avistamiento con ID " ++ id
  | .getImagenes sid => "Error al obtener imágenes del avistamiento con ID " ++ sid
  | .postImagenes sid => "Error al crear imagen para el avistamiento con ID " ++ sid
  | .deleteImagen sid iid =>
    "Error al eliminar imagen con ID " ++ iid ++ " del avistamiento con ID " ++ sid
  | .root => ""

/-- The request `req` with its Authorization header replaced. -/
def Request.withAuthorization (req : Request) (h : Option String) : Request :=
  { req with authorization := h }

/-- The statement texts of `index.js`, by route (lines 65, 78, 92, 105, 118, 130,
157, 172, 185, 199, 212, 226, 239, 253, 267 and 284). -/
def sourceSql : Route → String
  | .detect => ""
  | .getEspecies => "SELECT * FROM especies"
  | .postEspecies =>
    "INSERT INTO especies (nombre_cientifico, nombre_comun, descripcion, estado_conservacion, habitat) VALUES ($1, $2, $3, $4, $5) RETURNING *"
  | .putEspecie _ =>
    "UPDATE especies SET nombre_cientifico = $1, nombre_comun = $2, descripcion = $3, estado_conservacion = $4, habitat = $5 WHERE id = $6 RETURNING *"
  | .deleteEspecie _ => "DELETE FROM especies WHERE id = $1"
  | .getUsuarios => "SELECT id, nombre, email, fecha_registro FROM usuarios"
  | .login => "SELECT * FROM usuarios WHERE email = $1"
  | .postUsuarios =>
    "INSERT INTO usuarios (nombre, email, contraseña) VALUES ($1, $2, $3) RETURNING id, nombre, email, fecha_registro"
  | .putUsuario _ =>
    "UPDATE usuarios SET nombre = $1, email = $2, contraseña = $3 WHERE id = $4 RETURNING id, nombre, email, fecha_registro"
  | .deleteUsuario _ => "DELETE FROM usuarios WHERE id = $1"
  | .getAvistamientos => "SELECT * FROM avistamientos"
  | .postAvistamientos =>
    "INSERT INTO avistamientos (id_especie, id_usuario, fecha_avistamiento, ubicacion, imagen_url, comentarios) VALUES ($1, $2, $3, $4, $5, $6) RETURNING *"
  | .putAvistamiento _ =>
    "UPDATE avistamientos SET id_especie = $1, id_usuario = $2, fecha_avistamiento = $3, ubicacion = $4, imagen_url = $5, comentarios = $6 WHERE id = $7 RETURNING *"
  | .deleteAvistamiento _ => "DELETE FROM avistamientos WHERE id = $1"
  | .getImagenes _ => "SELECT * FROM imagenes WHERE id_avistamiento = $1"
  | .postImagenes _ =>
    "INSERT INTO imagenes (id_avistamiento, url, metadatos) VALUES ($1, $2, $3) RETURNING *"
  | .deleteImagen _ _ => "DELETE FROM imagenes WHERE id = $1 AND id_avistamiento = $2"
  | .root => ""

/-- The text of the first store round-trip of a trace. -/
def firstSql (tr : List Event) : Option String :=
  match tr with
  | .query q :: _ => some q.sql
  | _ => none

/-! ## Entities and their routes -/

/-- The four persisted entities. -/
inductive Entity where
  | especie
  | usuario
  | avistamiento
  | imagen
  deriving DecidableEq, Repr

/-- The table of an entity. -/
def Entity.table : Entity → Table
  | .especie => .especies
  | .usuario => .usuarios
  | .avistamiento => .avistamientos
  | .imagen => .imagenes

/-- The delete route of an entity for the path id `id`; an image is addressed
under its parent sighting `sid`, which the other entities ignore. -/
def Entity.deleteRoute (id sid : String) : Entity → Route
  | .especie => .deleteEspecie id
  | .usuario => .deleteUsuario id
  | .avistamiento => .deleteAvistamiento id
  | .imagen => .deleteImagen sid id

/-- The update route of an entity for the path id `id`: `index.js` registers a
`PUT` for species, users and sightings and none for images (lines 276–277 are
an empty placeholder). -/
def Entity.updateRoute (id : String) : Entity → Option Route
  | .especie => some (.putEspecie id)
  | .usuario => some (.putUsuario id)
  | .avistamiento => some (.putAvistamiento id)
  | .imagen => none

/-- The message of a successful delete (lines 106, 186, 240 and 285). -/
def Entity.deletedMessage : Entity → String
  | .especie => "Especie eliminada correctamente"
  | .usuario => "Usuario eliminado correctamente"
  | .avistamiento => "Avistamiento eliminado correctamente"
  | .imagen => "Imagen eliminada correctamente"

/-- The rows a response body carries. -/
def Body.rowsOf : Body → List Row
  | .rows rs => rs
  | .row (some r) => [r]
  | _ => []

/-- A user row with the value of its credential column blanked. -/
def eraseCredential (r : Row) : Row :=
  r.assign [("contraseña", none)]

/-- Two stores that differ at most in the values of the users' credential column. -/
def Db.sameButCredentials (a b : Db) : Prop :=
  a.usuarios.rows.map eraseCredential = b.usuarios.rows.map eraseCredential ∧
  a.usuarios.nextId = b.usuarios.nextId ∧
  a.especies = b.especies ∧
  a.avistamientos = b.avistamientos ∧
  a.imagenes = b.imagenes ∧
  a.now = b.now

/-- The create route of an entity; an image is created under the sighting `sid`. -/
def Entity.createRoute (sid : String) : Entity → Route
  | .especie => .postEspecies
  | .usuario => .postUsuarios
  | .avistamiento => .postAvistamientos
  | .imagen => .postImagenes sid

/-- The list route of an entity; images are listed under the sighting `sid`. -/
def Entity.listRoute (sid : String) : Entity → Route
  | .especie => .getEspecies
  | .usuario => .getUsuarios
  | .avistamiento => .getAvistamientos
  | .imagen => .getImagenes sid

/-- The fields a create request gives in its body. -/
def Entity.inputFields : Entity → List String
  | .especie => especieFields
  | .usuario => usuarioFields
  | .avistamiento => avistamientoFields
  | .imagen => ["url", "metadatos"]

/-- The input fields that the list route of the entity returns: all of them,
except for users, whose list projects on `usuarioPublic` and so leaves the
credential out. -/
def Entity.listedFields (E : Entity) : List String :=
  E.inputFields.filter fun f => E != .usuario || f ∈ usuarioPublic

/-! ## Sample environments and stores -/

/-- Claims of the sample token. -/
def sampleClaims : Row := [("id", some "1"), ("email", some "ana@example.org")]

/-- A sample environment: one secret, a verifier that accepts the token
`aaa.bbb.ccc` under it, a comparison that accepts the hash `h:` followed by the
plain text, a runtime with the built-in `FormData`, a detection service that
answers, and a store that answers. -/
def sampleEnv : Env where
  secretKey := some "s3cr3t"
  jwtVerify := fun t k =>
    if t = "aaa.bbb.ccc" ∧ k = some "s3cr3t" then .ok sampleClaims else .error "invalid signature"
  jwtSign := fun _ k _ =>
    match k with
    | some _ => .ok "xxx.yyy.zzz"
    | none => .error "secretOrPrivateKey must have a value"
  bcryptCompare := fun p h =>
    match p, h with
    | some a, some b => .ok (("h:" ++ a) == b)
    | _, _ => .error "data and hash arguments required"
  dbError := none
  globals := ["console", "process", "Buffer", "FormData"]
  formDataGetHeaders := false
  axiosPost := fun _ _ => .ok "jaguar"

/-- The sample environment with a store that rejects the query. -/
def failingEnv : Env := { sampleEnv with dbError := some "connection refused" }

/-- A request without header, body or file. -/
def emptyRequest : Request := ⟨none, [], none⟩

/-- A store with one user and two images of two sightings. -/
def sampleDb : Db where
  especies := ⟨[], 1⟩
  usuarios :=
    ⟨[[("id", some "1"), ("nombre", some "Ana"), ("email", some "ana@example.org"),
        ("contraseña", some "h:clave"), ("fecha_registro", some "2024-01-01")]], 2⟩
  avistamientos := ⟨[], 1⟩
  imagenes :=
    ⟨[[("id", some "1"), ("id_avistamiento", some "10"), ("url", some "a.png"),
        ("metadatos", none)],
      [("id", some "2"), ("id_avistamiento", some "20"), ("url", some "b.png"),
        ("metadatos", none)]], 3⟩
  now := "2024-06-01"

/-- The sample environment at its most favourable to the detection handler:
the runtime's `FormData` has `getHeaders` and the service answers 2xx. -/
def favourableEnv : Env := { sampleEnv with formDataGetHeaders := true }

/-- A request carrying an uploaded image. -/
def uploadRequest : Request := ⟨none, [], some "uploads/3f2a9c"⟩

/-- A create request for a user. -/
def evaRequest : Request :=
  ⟨none, [("nombre", some "Eva"), ("email", some "eva@example.org"),
    ("contraseña", some "clave")], none⟩

/-- A create request for a species. -/
def jaguarRequest : Request :=
  ⟨none, [("nombre_cientifico", some "Panthera onca"), ("nombre_comun", some "Jaguar"),
    ("descripcion", some "felino"), ("estado_conservacion", some "Near Threatened"),
    ("habitat", some "Rainforest")], none⟩

/-- The sample store with another credential for its user. -/
def sampleDbOtherCredential : Db :=
  { sampleDb with
    usuarios :=
      ⟨[[("id", some "1"), ("nombre", some "Ana"), ("email", some "ana@example.org"),
          ("contraseña", some "h:secreto"), ("fecha_registro", some "2024-01-01")]], 2⟩ }

/-- The sample store with a second user, whose id is 99. -/
def sampleDbWithUsuario99 : Db :=
  { sampleDb with
    usuarios :=
      ⟨sampleDb.usuarios.rows ++
        [[("id", some "99"), ("nombre", some "Eva"), ("email", some "eva@example.org"),
          ("contraseña", some "h:otra"), ("fecha_registro", some "2024-02-02")]], 100⟩ }

/-! ## Splitting the Authorization header -/

/-- A split always has a first piece. -/
theorem jsSplit_ne_nil (sep : Char) (cs : List Char) : jsSplit sep cs ≠ [] := by
  cases cs with
  | nil => simp [jsSplit]
  | cons c cs =>
    unfold jsSplit
    split
    · simp
    · split <;> simp

/-- A string without separator is the only piece of its split. -/
theorem jsSplit_of_not_mem (sep : Char) (cs : List Char) (h : sep ∉ cs) :
    jsSplit sep cs = [cs] := by
  induction cs with
  | nil => rfl
  | cons c cs ih =>
    have hc : c ≠ sep := fun e => h (by simp [e])
    have hcs : sep ∉ cs := fun m => h (List.mem_cons_of_mem _ m)
    simp [jsSplit, hc, ih hcs]

/-- The first separator ends the first piece and the rest is split in turn. -/
theorem jsSplit_append_sep (sep : Char) (w rest : List Char) (h : sep ∉ w) :
    jsSplit sep (w ++ sep :: rest) = w :: jsSplit sep rest := by
  induction w with
  | nil => simp [jsSplit]
  | cons c w ih =>
    have hc : c ≠ sep := fun e => h (by simp [e])
    have hw : sep ∉ w := fun m => h (List.mem_cons_of_mem _ m)
    simp [jsSplit, hc, ih hw]

/-- A header without space yields no token. -/
theorem extractToken_no_space (h : String) (hs : ' ' ∉ h.toList) :
    extractToken (some h) = none := by
  simp only [extractToken]
  rw [jsSplit_of_not_mem ' ' h.toList hs]
  rfl

/-- The token of `w ++ " " ++ rest` is the first piece of `rest`. -/
theorem extractToken_scheme (w rest : String) (hw : ' ' ∉ w.toList) :
    extractToken (some (w ++ " " ++ rest)) =
      ((jsSplit ' ' rest.toList).head?).map String.mk := by
  have e : (w ++ " " ++ rest).toList = w.toList ++ ' ' :: rest.toList := by
    simp [String.toList]
  simp only [extractToken, e, jsSplit_append_sep ' ' _ _ hw]
  cases jsSplit ' ' rest.toList <;> simp

/-! ## The statements are those of the source -/

/-- On every store route the handler's round-trip is the statement written in
`index.js` for that route, whatever the request and the fate of the query. -/
theorem handler_sql (env : Env) (db : Db) (req : Request) (r : Route)
    (hr : r.queriesStore = true) :
    firstSql (handlerOf env db req r).trace = some (sourceSql r) := by
  cases r <;>
    first
    | exact absurd hr (by decide)
    | (simp only [handlerOf, getEspecies, postEspecies, putEspecie, deleteEspecie, getUsuarios,
         login, postUsuarios, putUsuario, deleteUsuario, getAvistamientos, postAvistamientos,
         putAvistamiento, deleteAvistamiento, getImagenes, postImagenes, deleteImagen,
         Outcome.reply]
       repeat' split
       all_goals
         simp only [firstSql, sourceSql, Query.sql, bodyValues, especieFields, usuarioFields,
           usuarioPublic, avistamientoFields, List.map, bindSql, List.enum, List.enumFrom,
           whereSql, List.length, Option.some.injEq]
         decide)

/-! ## Store lemmas -/

/-- Projection on `*` keeps the row. -/
theorem project_none (r : Row) : Row.project none r = r := rfl

/-- Projection on `*` keeps every row. -/
theorem map_project_none (rs : List Row) : rs.map (Row.project none) = rs := by
  induction rs with
  | nil => rfl
  | cons r rs ih => simp [Row.project, ih]

/-- Every row passes an empty `WHERE`. -/
theorem filter_satisfies_nil (rs : List Row) : (rs.filter fun r => r.satisfies []) = rs := by
  simp [Row.satisfies]

/-! ## The gated route -/

/-- C1: on `GET /api/especies`, a request without usable token (no header, or an
undefined or empty second piece) is answered 401 "Token no proporcionado", a
token the verifier rejects is answered 401 "Token inválido", and in both cases
no store query is made and the store is untouched; a token the verifier accepts
has its claims stored in `req.user`, the handler's query runs exactly once, and
when that query succeeds the answer is 200 with the rows of `especies`. -/
theorem getEspecies_gated (env : Env) (db : Db) (req : Request) :
    ((extractToken req.authorization = none ∨ extractToken req.authorization = some "") →
      serve env db .getEspecies req =
        ⟨⟨401, .error "Token no proporcionado"⟩, db, [], none⟩) ∧
    (∀ t e, extractToken req.authorization = some t → t ≠ "" →
      env.jwtVerify t env.secretKey = .error e →
      serve env db .getEspecies req =
        ⟨⟨401, .error "Token inválido"⟩, db, [.jwtVerify t], none⟩) ∧
    (∀ t d, extractToken req.authorization = some t → t ≠ "" →
      env.jwtVerify t env.secretKey = .ok d →
      (serve env db .getEspecies req).user = some d ∧
      (serve env db .getEspecies req).trace =
        [.jwtVerify t, .query (.select none .especies [])] ∧
      queryCount (serve env db .getEspecies req).trace = 1 ∧
      (env.dbError = none →
        (serve env db .getEspecies req).resp = ⟨200, .rows db.especies.rows⟩ ∧
        (serve env db .getEspecies req).db = db)) := by
  refine ⟨?_, ?_, ?_⟩
  · intro h
    rcases h with h | h <;>
      simp [serve, Route.gated, verificarToken, h, truthy, Outcome.reply, Response.statusJson]
  · intro t e ht hne hv
    simp [serve, Route.gated, verificarToken, ht, truthy, hne, hv, Outcome.reply,
      Response.statusJson]
  · intro t d ht hne hv
    have hs : serve env db .getEspecies req =
        ⟨(getEspecies env db req).resp, (getEspecies env db req).db,
          [.jwtVerify t] ++ (getEspecies env db req).trace, some d⟩ := by
      simp [serve, Route.gated, verificarToken, ht, truthy, hne, hv, handlerOf]
    rw [hs]
    cases hdb : env.dbError with
    | none =>
      simp [getEspecies, poolQuery, hdb, Outcome.reply, queryCount, Response.json,
        Db.table, Db.exec, map_project_none, filter_satisfies_nil]
    | some e =>
      simp [getEspecies, poolQuery, hdb, Outcome.reply, queryCount]

/-- C10: `verificarToken` never looks at the scheme word.  For a header `w ++ " " ++ t`
with `w` free of spaces, the extracted token is `t` and the middleware calls `next()`
whenever the verifier accepts `t` (a non-empty token, free of spaces as every
compact token is), whatever `w` is; for a header `w` without any space the
extracted token is undefined, for `w ++ "  " ++ rest` it is empty, and in both
cases it answers 401 "Token no proporcionado" without calling the
verifier. -/
theorem verificarToken_scheme_blind (env : Env) (body : Row) (file : Option String) (w : String)
    (hw : ' ' ∉ w.toList) :
    (∀ t d, ' ' ∉ t.toList → t ≠ "" → env.jwtVerify t env.secretKey = .ok d →
      extractToken (some (w ++ " " ++ t)) = some t ∧
      verificarToken env ⟨some (w ++ " " ++ t), body, file⟩ = (.next d, [.jwtVerify t])) ∧
    (extractToken (some w) = none ∧
      verificarToken env ⟨some w, body, file⟩ =
        (.respond ⟨401, .error "Token no proporcionado"⟩, [])) ∧
    (∀ rest : String, extractToken (some (w ++ "  " ++ rest)) = some "" ∧
      verificarToken env ⟨some (w ++ "  " ++ rest), body, file⟩ =
        (.respond ⟨401, .error "Token no proporcionado"⟩, [])) := by
  refine ⟨?_, ?_, ?_⟩
  · intro t d ht hne hv
    have e : extractToken (some (w ++ " " ++ t)) = some t := by
      rw [extractToken_scheme w t hw, jsSplit_of_not_mem ' ' t.toList ht]
      simp [String.toList]
    exact ⟨e, by simp [verificarToken, e, truthy, hne, hv]⟩
  · have e := extractToken_no_space w hw
    exact ⟨e, by simp [verificarToken, e, truthy, Response.statusJson]⟩
  · intro rest
    have e : extractToken (some (w ++ "  " ++ rest)) = some "" := by
      have hr : w ++ "  " ++ rest = w ++ " " ++ (" " ++ rest) := by
        apply String.ext
        simp
      rw [hr, extractToken_scheme w _ hw]
      have : (" " ++ rest).toList = [] ++ ' ' :: rest.toList := by simp [String.toList]
      rw [this, jsSplit_append_sep ' ' [] _ (by simp)]
      rfl
    exact ⟨e, by simp [verificarToken, e, truthy, Response.statusJson]⟩

/-- C1 at sample requests: no header, a token the verifier rejects, and the token
it accepts. -/
theorem getEspecies_gated_witness :
    serve sampleEnv sampleDb .getEspecies emptyRequest =
      ⟨⟨401, .error "Token no proporcionado"⟩, sampleDb, [], none⟩ ∧
    serve sampleEnv sampleDb .getEspecies ⟨some "Bearer bad", [], none⟩ =
      ⟨⟨401, .error "Token inválido"⟩, sampleDb, [.jwtVerify "bad"], none⟩ ∧
    (serve sampleEnv sampleDb .getEspecies ⟨some "Bearer aaa.bbb.ccc", [], none⟩).resp =
      ⟨200, .rows []⟩ :=
  ⟨(getEspecies_gated sampleEnv sampleDb emptyRequest).1 (Or.inl rfl),
    (getEspecies_gated sampleEnv sampleDb ⟨some "Bearer bad", [], none⟩).2.1
      "bad" "invalid signature" (by decide) (by decide) (by rfl),
    (((getEspecies_gated sampleEnv sampleDb ⟨some "Bearer aaa.bbb.ccc", [], none⟩).2.2
      "aaa.bbb.ccc" sampleClaims (by decide) (by decide) (by rfl)).2.2.2 rfl).1⟩

/-- C10 at sample headers: the scheme word `Token` is accepted like any other, and
under the scheme `Bearer` a missing token or a doubled space is answered 401
without the verifier. -/
theorem verificarToken_scheme_blind_witness :
    verificarToken sampleEnv ⟨some ("Token" ++ " " ++ "aaa.bbb.ccc"), [], none⟩ =
      (.next sampleClaims, [.jwtVerify "aaa.bbb.ccc"]) ∧
    verificarToken sampleEnv ⟨some "Bearer", [], none⟩ =
      (.respond ⟨401, .error "Token no proporcionado"⟩, []) ∧
    verificarToken sampleEnv ⟨some ("Bearer" ++ "  " ++ "aaa.bbb.ccc"), [], none⟩ =
      (.respond ⟨401, .error "Token no proporcionado"⟩, []) :=
  ⟨((verificarToken_scheme_blind sampleEnv [] none "Token" (by decide)).1
      "aaa.bbb.ccc" sampleClaims (by decide) (by decide) (by rfl)).2,
    (verificarToken_scheme_blind sampleEnv [] none "Bearer" (by decide)).2.1.2,
    ((verificarToken_scheme_blind sampleEnv [] none "Bearer" (by decide)).2.2 "aaa.bbb.ccc").2⟩

/-! ## Login -/

/-- SQL equality that holds is equality. -/
theorem eq_of_sqlEq {a b : Val} (h : sqlEq a b = true) : a = b := by
  cases a <;> cases b <;> simp_all [sqlEq]

/-- The rows the login lookup returns. -/
theorem exec_select_email (db : Db) (email : Val) :
    db.exec (.select none .usuarios [("email", email)]) =
      (db.usuarios.rows.filter fun r => sqlEq (r.get "email") email, db) := by
  simp [Db.exec, Db.table, Row.satisfies, map_project_none]

/-- The first row a predicate finds heads the filtered list. -/
theorem filter_of_find? {α : Type} (p : α → Bool) (l : List α) (u : α)
    (h : l.find? p = some u) : ∃ rest, l.filter p = u :: rest := by
  induction l with
  | nil => simp at h
  | cons a l ih =>
    by_cases hp : p a = true
    · simp [List.find?, hp] at h
      subst h
      exact ⟨l.filter p, by rw [List.filter_cons_of_pos hp]⟩
    · simp [List.find?, hp] at h
      obtain ⟨rest, hr⟩ := ih h
      exact ⟨rest, by rw [List.filter_cons_of_neg hp, hr]⟩

/-- C2: when the store answers the login lookup, an email no user row has is
answered 400 "Usuario no encontrado" with neither comparison nor signature; with
`u` the first row of that email, a comparison of the given credential with the
stored one that returns false is answered 400 "Contraseña incorrecta" with no
signature, and one that returns true is answered 200 with the token obtained by
signing exactly `id` and `email` of `u` under the server secret for `1h`. -/
theorem login_contract (env : Env) (db : Db) (req : Request) (hq : env.dbError = none) :
    ((∀ r ∈ db.usuarios.rows, r.get "email" ≠ req.body.get "email") →
      (serve env db .login req).resp = ⟨400, .error "Usuario no encontrado"⟩ ∧
      compareCount (serve env db .login req).trace = 0 ∧
      signCount (serve env db .login req).trace = 0) ∧
    (∀ u, db.usuarios.rows.find? (fun r => sqlEq (r.get "email") (req.body.get "email")) = some u →
      (env.bcryptCompare (req.body.get "contraseña") (u.get "contraseña") = .ok false →
        (serve env db .login req).resp = ⟨400, .error "Contraseña incorrecta"⟩ ∧
        signCount (serve env db .login req).trace = 0) ∧
      (∀ tok, env.bcryptCompare (req.body.get "contraseña") (u.get "contraseña") = .ok true →
        env.jwtSign [("id", u.get "id"), ("email", u.get "email")] env.secretKey "1h" = .ok tok →
        (serve env db .login req).resp = ⟨200, .token tok⟩ ∧
        (serve env db .login req).trace =
          [.query (.select none .usuarios [("email", req.body.get "email")]),
            .bcryptCompare (req.body.get "contraseña") (u.get "contraseña"),
            .jwtSign [("id", u.get "id"), ("email", u.get "email")] "1h"])) := by
  have hserve : serve env db .login req = login env db req := rfl
  rw [hserve]
  refine ⟨?_, ?_⟩
  · intro hno
    have hf : (db.usuarios.rows.filter fun r => sqlEq (r.get "email") (req.body.get "email"))
        = [] := by
      rw [List.filter_eq_nil_iff]
      intro r hr hs
      exact hno r hr (eq_of_sqlEq hs)
    simp [login, poolQuery, hq, exec_select_email, hf, Outcome.reply, Response.statusJson,
      compareCount, signCount]
  · intro u hu
    obtain ⟨rest, hf⟩ := filter_of_find? _ _ _ hu
    refine ⟨?_, ?_⟩
    · intro hc
      simp [login, poolQuery, hq, exec_select_email, hf, hc, Outcome.reply,
        Response.statusJson, signCount]
    · intro tok hc hs
      simp [login, poolQuery, hq, exec_select_email, hf, hc, hs, Outcome.reply,
        Response.json]

/-- C2 at the sample store: an unknown email, a wrong credential and the right one. -/
theorem login_contract_witness :
    (serve sampleEnv sampleDb .login ⟨none, [("email", some "eva@example.org")], none⟩).resp =
      ⟨400, .error "Usuario no encontrado"⟩ ∧
    (serve sampleEnv sampleDb .login
      ⟨none, [("email", some "ana@example.org"), ("contraseña", some "otra")], none⟩).resp =
      ⟨400, .error "Contraseña incorrecta"⟩ ∧
    (serve sampleEnv sampleDb .login
      ⟨none, [("email", some "ana@example.org"), ("contraseña", some "clave")], none⟩).resp =
      ⟨200, .token "xxx.yyy.zzz"⟩ :=
  ⟨((login_contract sampleEnv sampleDb _ rfl).1 (by decide)).1,
    (((login_contract sampleEnv sampleDb _ rfl).2 _ (by rfl)).1 (by rfl)).1,
    (((login_contract sampleEnv sampleDb _ rfl).2 _ (by rfl)).2 _ (by rfl) (by rfl)).1⟩

/-! ## The detection proxy -/

/-- The name `fs` is not bound by the module: the `require` list has no `fs`. -/
theorem fs_not_in_moduleScope : "fs" ∉ moduleScope := by decide

/-- In a runtime that does not define `fs` globally, the detection handler
throws before the outbound call and answers 500, whatever the request and
whatever the service would answer. -/
theorem detect_never_relays (env : Env) (db : Db) (req : Request) (hfs : "fs" ∉ env.globals) :
    detect env db req = ⟨⟨500, .error "Error al procesar la imagen"⟩, db, [], none⟩ := by
  have hr : resolve env "fs" = .error ("ReferenceError: " ++ "fs" ++ " is not defined") := by
    simp [resolve, hfs, fs_not_in_moduleScope]
  unfold detect detectTry
  cases req.file with
  | none => rfl
  | some path =>
    cases hF : resolve env "FormData" with
    | error e => rfl
    | ok u => simp [hr, Outcome.reply, Response.statusJson]

/-- C3 (the code at the failing input): a request carries an upload, the
service would answer 2xx with the body `jaguar`, and the handler answers 500
"Error al procesar la imagen" without having posted anything. -/
theorem detect_failing_input :
    favourableEnv.axiosPost detectUrl "uploads/3f2a9c" = .ok "jaguar" ∧
    serve favourableEnv sampleDb .detect uploadRequest =
      ⟨⟨500, .error "Error al procesar la imagen"⟩, sampleDb, [], none⟩ :=
  ⟨rfl, detect_never_relays favourableEnv sampleDb uploadRequest (by decide)⟩

/-! ## Store failures -/

/-- C4 as stated fails: with the store rejecting the query, the same route
`PUT /api/especies/:id` answers two different messages for two path ids. -/
theorem storeError_message_varies :
    (app failingEnv sampleDb .PUT ["api", "especies", "1"] emptyRequest).resp =
      ⟨500, .error "Error al actualizar especie con ID 1"⟩ ∧
    (app failingEnv sampleDb .PUT ["api", "especies", "2"] emptyRequest).resp =
      ⟨500, .error "Error al actualizar especie con ID 2"⟩ ∧
    (app failingEnv sampleDb .PUT ["api", "especies", "1"] emptyRequest).resp ≠
      (app failingEnv sampleDb .PUT ["api", "especies", "2"] emptyRequest).resp := by
  decide

/-- C4, amended: on every route that queries the store, a request whose query
the store rejects (on the gated route: one that passed `verificarToken`) is answered
500 with the error message `storeErrorMessage r`, which is determined by the
route and its path parameters alone: the same for every body, every store state
and every store error. -/
theorem storeError_response (env : Env) (db : Db) (r : Route) (req : Request) (e : String)
    (hr : r.queriesStore = true) (he : env.dbError = some e)
    (hg : r.gated = true → ∃ d, (verificarToken env req).1 = .next d) :
    (serve env db r req).resp = ⟨500, .error (storeErrorMessage r)⟩ := by
  cases r <;>
    first
    | exact absurd hr (by decide)
    | (obtain ⟨d, hd⟩ := hg rfl
       simp [serve, Route.gated, handlerOf, getEspecies, poolQuery, he, Outcome.reply,
         Response.statusJson, storeErrorMessage]
       split <;> simp_all)
    | simp [serve, Route.gated, handlerOf, postEspecies, putEspecie, deleteEspecie, getUsuarios,
        login, postUsuarios, putUsuario, deleteUsuario, getAvistamientos, postAvistamientos,
        putAvistamiento, deleteAvistamiento, getImagenes, postImagenes, deleteImagen, poolQuery,
        he, Outcome.reply, Response.statusJson, storeErrorMessage]

/-- C4 amended, at two failing requests: the gated list after a good token, and an
update with a path id. -/
theorem storeError_response_witness :
    (serve failingEnv sampleDb .getEspecies ⟨some "Bearer aaa.bbb.ccc", [], none⟩).resp =
      ⟨500, .error "Error al obtener especies"⟩ ∧
    (serve failingEnv sampleDb (.putEspecie "7") emptyRequest).resp =
      ⟨500, .error ("Error al actualizar especie con ID " ++ "7")⟩ :=
  ⟨storeError_response failingEnv sampleDb .getEspecies ⟨some "Bearer aaa.bbb.ccc", [], none⟩
      "connection refused" rfl rfl (fun _ => ⟨sampleClaims, by rfl⟩),
    storeError_response failingEnv sampleDb (.putEspecie "7") emptyRequest
      "connection refused" rfl rfl (fun h => absurd h (by decide))⟩

/-! ## Where the middleware is registered -/

/-- C9: `verificarToken` is registered on `GET /api/especies` and on no other
route; on every other route the whole outcome of a request is the same under
any two Authorization headers (absent, invalid or valid), and the status of the
response is never 401. -/
theorem gate_only_on_getEspecies (env : Env) (db : Db) (r : Route) (req : Request)
    (hr : r ≠ .getEspecies) (h₁ h₂ : Option String) :
    Route.gated .getEspecies = true ∧
    r.gated = false ∧
    serve env db r (req.withAuthorization h₁) = serve env db r (req.withAuthorization h₂) ∧
    (serve env db r req).resp.status ≠ 401 := by
  refine ⟨rfl, ?_, ?_, ?_⟩
  · cases r <;> first | rfl | exact absurd rfl hr
  · cases r <;>
      first
      | exact absurd rfl hr
      | simp [serve, Route.gated, handlerOf, Request.withAuthorization, detect, detectTry,
          postEspecies, putEspecie, deleteEspecie, getUsuarios, login, postUsuarios, putUsuario,
          deleteUsuario, getAvistamientos, postAvistamientos, putAvistamiento,
          deleteAvistamiento, getImagenes, postImagenes, deleteImagen, root, bodyValues]
  · cases r <;>
      first
      | exact absurd rfl hr
      | (simp only [serve, Route.gated, Bool.false_eq_true, if_false, handlerOf, detect,
          detectTry, postEspecies, putEspecie, deleteEspecie, getUsuarios, login, postUsuarios, putUsuario,
          deleteUsuario, getAvistamientos, postAvistamientos, putAvistamiento,
          deleteAvistamiento, getImagenes, postImagenes, deleteImagen, root, Outcome.reply,
          Response.json, Response.statusJson]
         repeat' split
         all_goals simp)

/-- C9 at a sample request: the user list answers alike without header and with a
bad token. -/
theorem gate_only_on_getEspecies_witness :
    serve sampleEnv sampleDb .getUsuarios (emptyRequest.withAuthorization none) =
      serve sampleEnv sampleDb .getUsuarios (emptyRequest.withAuthorization (some "Bearer bad")) ∧
    (serve sampleEnv sampleDb .getUsuarios emptyRequest).resp.status ≠ 401 :=
  ⟨(gate_only_on_getEspecies sampleEnv sampleDb .getUsuarios emptyRequest (by decide)
      none (some "Bearer bad")).2.2.1,
    (gate_only_on_getEspecies sampleEnv sampleDb .getUsuarios emptyRequest (by decide)
      none none).2.2.2⟩

/-! ## Ids that match no row -/

/-- SQL equality with a non-`NULL` value holds exactly on that value. -/
theorem sqlEq_some_iff (a : Val) (x : String) : sqlEq a (some x) = true ↔ a = some x := by
  cases a <;> simp [sqlEq]

/-- A row whose id is not `id` fails every `WHERE` that starts with `id = id`. -/
theorem satisfies_id_false (r : Row) (id : String) (rest : List (String × Val))
    (h : r.get "id" ≠ some id) : r.satisfies (("id", some id) :: rest) = false := by
  have : sqlEq (r.get "id") (some id) = false := by
    cases hs : sqlEq (r.get "id") (some id)
    · rfl
    · exact absurd ((sqlEq_some_iff _ _).1 hs) h
  simp [Row.satisfies, this]

/-- Writing a table back unchanged leaves the store as it was. -/
theorem setTable_self (db : Db) (t : Table) :
    db.setTable t ⟨(db.table t).rows, (db.table t).nextId⟩ = db := by
  cases t <;> rfl

/-- A `DELETE` whose `WHERE` no row passes leaves the store as it was. -/
theorem exec_delete_absent (db : Db) (t : Table) (cond : List (String × Val))
    (h : ∀ r ∈ (db.table t).rows, r.satisfies cond = false) :
    (db.exec (.delete t cond)).2 = db := by
  have hf : ((db.table t).rows.filter fun r => !r.satisfies cond) = (db.table t).rows := by
    rw [List.filter_eq_self]
    intro r hr
    simp [h r hr]
  simp only [Db.exec, hf]
  exact setTable_self db t

/-- An `UPDATE` whose `WHERE` no row passes returns no row and leaves the store as it was. -/
theorem exec_update_absent (db : Db) (t : Table) (sets cond : List (String × Val))
    (ret : Option (List String)) (h : ∀ r ∈ (db.table t).rows, r.satisfies cond = false) :
    db.exec (.update t sets cond ret) = ([], db) := by
  have hf : ((db.table t).rows.filter fun r => r.satisfies cond) = [] := by
    rw [List.filter_eq_nil_iff]
    intro r hr
    simp [h r hr]
  have hm : ((db.table t).rows.map fun r => if r.satisfies cond then r.assign sets else r)
      = (db.table t).rows := by
    conv_rhs => rw [← List.map_id (db.table t).rows]
    apply List.map_congr_left
    intro r hr
    simp [h r hr]
  simp only [Db.exec, hf, hm, List.map_nil]
  rw [setTable_self]

/-- C5 as stated fails for images: image id 99 is absent from the sample store
and the store answers, yet an update of image 99 under sighting 10 is answered
404, not 200 with an empty payload: no `PUT` route is registered under
`/api/avistamientos/:avistamientoId/imagenes`, so no handler of `index.js`
runs and the answer is the framework's. -/
theorem imagen_update_unrouted :
    (∀ r ∈ (sampleDb.table Entity.imagen.table).rows, r.get "id" ≠ some "99") ∧
    sampleEnv.dbError = none ∧
    dispatch .PUT ["api", "avistamientos", "10", "imagenes", "99"] = none ∧
    (app sampleEnv sampleDb .PUT ["api", "avistamientos", "10", "imagenes", "99"]
      emptyRequest).resp = ⟨404, .unrouted⟩ ∧
    (app sampleEnv sampleDb .PUT ["api", "avistamientos", "10", "imagenes", "99"]
      emptyRequest).resp ≠ ⟨200, .row none⟩ := by
  decide

/-- C5, amended: when the store answers and no row of the entity's table has the
id of the path, the delete route of every entity (species, user, sighting,
image) answers 200 with the entity's fixed message, the same answer as on any
other store, and leaves the store unchanged; and the update route of every
entity that has one (species, user, sighting) answers 200 with `rows[0]` of an
empty result, an undefined payload. -/
theorem absent_id_not_an_error (env : Env) (db : Db) (req : Request) (E : Entity)
    (id sid : String) (hq : env.dbError = none)
    (habs : ∀ r ∈ (db.table E.table).rows, r.get "id" ≠ some id) :
    (serve env db (E.deleteRoute id sid) req).resp = ⟨200, .message E.deletedMessage⟩ ∧
    (serve env db (E.deleteRoute id sid) req).db = db ∧
    (∀ db1 : Db, (serve env db1 (E.deleteRoute id sid) req).resp =
      (serve env db (E.deleteRoute id sid) req).resp) ∧
    (∀ r, E.updateRoute id = some r → (serve env db r req).resp = ⟨200, .row none⟩) := by
  have hno : ∀ rest, ∀ r ∈ (db.table E.table).rows,
      r.satisfies (("id", some id) :: rest) = false :=
    fun rest r hr => satisfies_id_false r id rest (habs r hr)
  cases E
  all_goals
    simp only [Entity.table] at hno
    refine ⟨?_, ?_, ?_, ?_⟩
    · simp [serve, Route.gated, handlerOf, Entity.deleteRoute, Entity.deletedMessage,
        deleteEspecie, deleteUsuario, deleteAvistamiento, deleteImagen, poolQuery, hq,
        Outcome.reply, Response.json]
    · simp only [serve, Route.gated, handlerOf, Entity.deleteRoute, deleteEspecie,
        deleteUsuario, deleteAvistamiento, deleteImagen, poolQuery, hq, Outcome.reply,
        Bool.false_eq_true, if_false]
      exact exec_delete_absent db _ _ (hno _)
    · intro db1
      simp [serve, Route.gated, handlerOf, Entity.deleteRoute, deleteEspecie, deleteUsuario,
        deleteAvistamiento, deleteImagen, poolQuery, hq, Outcome.reply]
    · intro r hr
      simp only [Entity.updateRoute, Option.some.injEq] at hr
      first
        | exact absurd hr (by simp)
        | (subst hr
           simp only [serve, Route.gated, handlerOf, putEspecie, putUsuario, putAvistamiento,
             poolQuery, hq, Outcome.reply, Bool.false_eq_true, if_false]
           rw [exec_update_absent db _ _ _ _ (hno _)]
           rfl)

/-- C5 amended, at the sample store, where no image and no user has id 99: the
delete of image 99 under sighting 10 and the delete of user 99 answer their
fixed messages and change nothing, the answer is the one an existing row gets
on another store, and the update of user 99 answers 200 with an undefined
payload. -/
theorem absent_id_not_an_error_witness :
    (serve sampleEnv sampleDb (.deleteImagen "10" "99") emptyRequest).resp =
      ⟨200, .message "Imagen eliminada correctamente"⟩ ∧
    (serve sampleEnv sampleDb (.deleteImagen "10" "99") emptyRequest).db = sampleDb ∧
    (serve sampleEnv sampleDb (.deleteUsuario "99") emptyRequest).resp =
      ⟨200, .message "Usuario eliminado correctamente"⟩ ∧
    (serve sampleEnv sampleDb (.deleteUsuario "99") emptyRequest).db = sampleDb ∧
    (serve sampleEnv sampleDbWithUsuario99 (.deleteUsuario "99") emptyRequest).resp =
      (serve sampleEnv sampleDb (.deleteUsuario "99") emptyRequest).resp ∧
    (serve sampleEnv sampleDb (.putUsuario "99") evaRequest).resp = ⟨200, .row none⟩ :=
  ⟨(absent_id_not_an_error sampleEnv sampleDb emptyRequest .imagen "99" "10" rfl
      (by decide)).1,
    (absent_id_not_an_error sampleEnv sampleDb emptyRequest .imagen "99" "10" rfl
      (by decide)).2.1,
    (absent_id_not_an_error sampleEnv sampleDb emptyRequest .usuario "99" "10" rfl
      (by decide)).1,
    (absent_id_not_an_error sampleEnv sampleDb emptyRequest .usuario "99" "10" rfl
      (by decide)).2.1,
    (absent_id_not_an_error sampleEnv sampleDb emptyRequest .usuario "99" "10" rfl
      (by decide)).2.2.1 sampleDbWithUsuario99,
    (absent_id_not_an_error sampleEnv sampleDb evaRequest .usuario "99" "10" rfl
      (by decide)).2.2.2 (.putUsuario "99") rfl⟩

/-! ## Deleting an image -/

/-- The `WHERE` of the image delete holds on the rows with that id and that parent. -/
theorem satisfies_imagen (r : Row) (i s : String) :
    r.satisfies [("id", some i), ("id_avistamiento", some s)] = true ↔
      r.get "id" = some i ∧ r.get "id_avistamiento" = some s := by
  simp [Row.satisfies, sqlEq_some_iff]

/-- C6: when the store answers, `DELETE /api/avistamientos/s/imagenes/i` answers
200 "Imagen eliminada correctamente", keeps exactly the image rows that do not
have both id `i` and parent sighting `s`, and touches no other table; so if no
row with id `i` belongs to sighting `s`, the store is unchanged. -/
theorem deleteImagen_scoped (env : Env) (db : Db) (req : Request) (s i : String)
    (hq : env.dbError = none) :
    (serve env db (.deleteImagen s i) req).resp =
      ⟨200, .message "Imagen eliminada correctamente"⟩ ∧
    (serve env db (.deleteImagen s i) req).db.imagenes.rows =
      db.imagenes.rows.filter
        (fun r => decide (¬ (r.get "id" = some i ∧ r.get "id_avistamiento" = some s))) ∧
    (serve env db (.deleteImagen s i) req).db.especies = db.especies ∧
    (serve env db (.deleteImagen s i) req).db.usuarios = db.usuarios ∧
    (serve env db (.deleteImagen s i) req).db.avistamientos = db.avistamientos ∧
    ((∀ r ∈ db.imagenes.rows, r.get "id" = some i → r.get "id_avistamiento" ≠ some s) →
      (serve env db (.deleteImagen s i) req).db = db) := by
  have hs : serve env db (.deleteImagen s i) req =
      ⟨⟨200, .message "Imagen eliminada correctamente"⟩,
        (db.exec (.delete .imagenes [("id", some i), ("id_avistamiento", some s)])).2,
        [.query (.delete .imagenes [("id", some i), ("id_avistamiento", some s)])], none⟩ := by
    simp [serve, Route.gated, handlerOf, deleteImagen, poolQuery, hq, Outcome.reply,
      Response.json]
  rw [hs]
  refine ⟨rfl, ?_, rfl, rfl, rfl, ?_⟩
  · simp only [Db.exec, Db.table, Db.setTable]
    apply List.filter_congr
    intro r _
    by_cases h : r.satisfies [("id", some i), ("id_avistamiento", some s)] = true
    · simp [h, (satisfies_imagen r i s).1 h]
    · have h2 : ¬ (r.get "id" = some i ∧ r.get "id_avistamiento" = some s) :=
        fun c => h ((satisfies_imagen r i s).2 c)
      simp [h, h2]
  · intro hmis
    show (db.exec (.delete .imagenes [("id", some i), ("id_avistamiento", some s)])).2 = db
    apply exec_delete_absent
    intro r hr
    cases hsat : r.satisfies [("id", some i), ("id_avistamiento", some s)]
    · rfl
    · have c := (satisfies_imagen r i s).1 hsat
      exact absurd c.2 (hmis r hr c.1)

/-- C6 at the sample store: image 1 belongs to sighting 10; deleting it under
sighting 20 changes nothing, deleting it under sighting 10 removes it alone. -/
theorem deleteImagen_scoped_witness :
    (serve sampleEnv sampleDb (.deleteImagen "20" "1") emptyRequest).db = sampleDb ∧
    (serve sampleEnv sampleDb (.deleteImagen "10" "1") emptyRequest).db.imagenes.rows =
      [[("id", some "2"), ("id_avistamiento", some "20"), ("url", some "b.png"),
        ("metadatos", none)]] :=
  ⟨(deleteImagen_scoped sampleEnv sampleDb emptyRequest "20" "1" rfl).2.2.2.2.2 (by decide),
    ((deleteImagen_scoped sampleEnv sampleDb emptyRequest "10" "1" rfl).2.1).trans
      (by decide)⟩

/-! ## Create, then list -/

/-- The row stored for a new species carries the body's value in every input field. -/
theorem newRow_get_especie (n : Nat) (now : String) (req : Request) :
    ∀ f ∈ especieFields,
      (newRow .especies n now (bodyValues req especieFields)).get f = req.body.get f := by
  intro f hf
  simp only [especieFields, List.mem_cons, List.mem_singleton, List.not_mem_nil, or_false] at hf
  rcases hf with rfl | rfl | rfl | rfl | rfl <;>
    simp [newRow, Table.columns, Row.get, List.lookup, bodyValues, especieFields]

/-- The row returned for a new user carries the body's name and email. -/
theorem newRow_get_usuario (n : Nat) (now : String) (req : Request) :
    ∀ f ∈ ["nombre", "email"],
      ((newRow .usuarios n now (bodyValues req usuarioFields)).project
        (some usuarioPublic)).get f = req.body.get f := by
  intro f hf
  simp only [List.mem_cons, List.mem_singleton, List.not_mem_nil, or_false] at hf
  rcases hf with rfl | rfl <;>
    simp [newRow, Table.columns, Row.get, List.lookup, bodyValues, usuarioFields, usuarioPublic,
      Row.project]

/-- The row stored for a new sighting carries the body's value in every input field. -/
theorem newRow_get_avistamiento (n : Nat) (now : String) (req : Request) :
    ∀ f ∈ avistamientoFields,
      (newRow .avistamientos n now (bodyValues req avistamientoFields)).get f =
        req.body.get f := by
  intro f hf
  simp only [avistamientoFields, List.mem_cons, List.mem_singleton, List.not_mem_nil,
    or_false] at hf
  rcases hf with rfl | rfl | rfl | rfl | rfl | rfl <;>
    simp [newRow, Table.columns, Row.get, List.lookup, bodyValues, avistamientoFields]

/-- The row stored for a new image carries the sighting of the path and the body's
value in every input field. -/
theorem newRow_get_imagen (n : Nat) (now sid : String) (req : Request) :
    (newRow .imagenes n now
      (("id_avistamiento", some sid) :: bodyValues req ["url", "metadatos"])).get
        "id_avistamiento" = some sid ∧
    ∀ f ∈ ["url", "metadatos"],
      (newRow .imagenes n now
        (("id_avistamiento", some sid) :: bodyValues req ["url", "metadatos"])).get f =
        req.body.get f := by
  refine ⟨by simp [newRow, Table.columns, Row.get, List.lookup, bodyValues], ?_⟩
  intro f hf
  simp only [List.mem_cons, List.mem_singleton, List.not_mem_nil, or_false] at hf
  rcases hf with rfl | rfl <;>
    simp [newRow, Table.columns, Row.get, List.lookup, bodyValues]

/-- C7 as stated fails for users: after a successful create with the credential
`clave`, the list returns the new user without any credential field. -/
theorem usuario_list_omits_credential :
    (app sampleEnv sampleDb .POST ["api", "usuarios"] evaRequest).resp.status = 200 ∧
    (app sampleEnv (app sampleEnv sampleDb .POST ["api", "usuarios"] evaRequest).db
      .GET ["api", "usuarios"] emptyRequest).resp =
      ⟨200, .rows
        [[("id", some "1"), ("nombre", some "Ana"), ("email", some "ana@example.org"),
            ("fecha_registro", some "2024-01-01")],
          [("id", some "2"), ("nombre", some "Eva"), ("email", some "eva@example.org"),
            ("fecha_registro", some "2024-06-01")]]⟩ ∧
    ∀ r ∈ (app sampleEnv (app sampleEnv sampleDb .POST ["api", "usuarios"] evaRequest).db
        .GET ["api", "usuarios"] emptyRequest).resp.body.rowsOf,
      r.get "contraseña" ≠ evaRequest.body.get "contraseña" := by
  decide

/-- The input fields the user list returns are the name and the email. -/
theorem listedFields_usuario : Entity.usuario.listedFields = ["nombre", "email"] := by
  decide

/-- C7, amended: for every entity, after a create whose insert succeeds, the create
answers 200 with a record that a subsequent list (one the store answers and, for
species, one that passes `verificarToken`; for images, the list of the same sighting)
returns among its rows, and that record equals the request body on every input
field the list returns: all input fields for species, sightings and images, and
`nombre` and `email` for users, whose list leaves the credential out. -/
theorem create_then_list (env : Env) (db : Db) (E : Entity) (sid : String) (req req1 : Request)
    (hq : env.dbError = none)
    (hg : (E.listRoute sid).gated = true → ∃ d, (verificarToken env req1).1 = .next d) :
    ∃ r rows,
      (serve env db (E.createRoute sid) req).resp = ⟨200, .row (some r)⟩ ∧
      (serve env (serve env db (E.createRoute sid) req).db (E.listRoute sid) req1).resp =
        ⟨200, .rows rows⟩ ∧
      r ∈ rows ∧
      (∀ f ∈ E.listedFields, r.get f = req.body.get f) ∧
      (E = .imagen → r.get "id_avistamiento" = some sid) := by
  cases E
  · obtain ⟨d, hd⟩ := hg rfl
    rcases hv : verificarToken env req1 with ⟨g, tr⟩
    rw [hv] at hd
    simp only at hd
    subst hd
    refine ⟨newRow .especies db.especies.nextId db.now (bodyValues req especieFields),
      db.especies.rows ++ [newRow .especies db.especies.nextId db.now
        (bodyValues req especieFields)], ?_, ?_, by simp, ?_, by simp⟩
    · simp [serve, Route.gated, handlerOf, Entity.createRoute, postEspecies, poolQuery, hq,
        Db.exec, Db.table, Row.project, Outcome.reply, Response.json]
    · simp [serve, Route.gated, handlerOf, Entity.createRoute, Entity.listRoute, postEspecies,
        getEspecies, poolQuery, hq, hv, Db.exec, Db.table, Db.setTable, Outcome.reply,
        Response.json, map_project_none, filter_satisfies_nil, project_none]
    · exact newRow_get_especie _ _ req
  · refine ⟨(newRow .usuarios db.usuarios.nextId db.now (bodyValues req usuarioFields)).project
        (some usuarioPublic),
      (db.usuarios.rows ++ [newRow .usuarios db.usuarios.nextId db.now
        (bodyValues req usuarioFields)]).map (Row.project (some usuarioPublic)),
      ?_, ?_, by simp, ?_, by simp⟩
    · simp [serve, Route.gated, handlerOf, Entity.createRoute, postUsuarios, poolQuery, hq,
        Db.exec, Db.table, Outcome.reply, Response.json]
    · simp [serve, Route.gated, handlerOf, Entity.createRoute, Entity.listRoute, postUsuarios,
        getUsuarios, poolQuery, hq, Db.exec, Db.table, Db.setTable, Outcome.reply,
        Response.json, filter_satisfies_nil]
    · rw [listedFields_usuario]
      exact newRow_get_usuario _ _ req
  · refine ⟨newRow .avistamientos db.avistamientos.nextId db.now
        (bodyValues req avistamientoFields),
      db.avistamientos.rows ++ [newRow .avistamientos db.avistamientos.nextId db.now
        (bodyValues req avistamientoFields)], ?_, ?_, by simp, ?_, by simp⟩
    · simp [serve, Route.gated, handlerOf, Entity.createRoute, postAvistamientos, poolQuery,
        hq, Db.exec, Db.table, Row.project, Outcome.reply, Response.json]
    · simp [serve, Route.gated, handlerOf, Entity.createRoute, Entity.listRoute,
        postAvistamientos, getAvistamientos, poolQuery, hq, Db.exec, Db.table, Db.setTable,
        Outcome.reply, Response.json, map_project_none, filter_satisfies_nil, project_none]
    · exact newRow_get_avistamiento _ _ req
  · have hrow := newRow_get_imagen db.imagenes.nextId db.now sid req
    refine ⟨newRow .imagenes db.imagenes.nextId db.now
        (("id_avistamiento", some sid) :: bodyValues req ["url", "metadatos"]),
      (db.imagenes.rows ++ [newRow .imagenes db.imagenes.nextId db.now
        (("id_avistamiento", some sid) :: bodyValues req ["url", "metadatos"])]).filter
          (fun r => r.satisfies [("id_avistamiento", some sid)]),
      ?_, ?_, ?_, ?_, fun _ => hrow.1⟩
    · simp [serve, Route.gated, handlerOf, Entity.createRoute, postImagenes, poolQuery, hq,
        Db.exec, Db.table, Row.project, Outcome.reply, Response.json]
    · simp only [serve, Route.gated, handlerOf, Entity.createRoute, Entity.listRoute,
        postImagenes, getImagenes, poolQuery, hq, Db.exec, Db.table, Db.setTable, Outcome.reply,
        Response.json, map_project_none, Bool.false_eq_true, if_false]
    · rw [List.mem_filter]
      refine ⟨by simp, ?_⟩
      simp [Row.satisfies, hrow.1, sqlEq]
    · exact hrow.2

/-- C7 amended, at the sample store: a species is created and then listed with a
good token. -/
theorem create_then_list_witness :
    ∃ r rows,
      (serve sampleEnv sampleDb .postEspecies jaguarRequest).resp = ⟨200, .row (some r)⟩ ∧
      (serve sampleEnv (serve sampleEnv sampleDb .postEspecies jaguarRequest).db .getEspecies
        ⟨some "Bearer aaa.bbb.ccc", [], none⟩).resp = ⟨200, .rows rows⟩ ∧
      r ∈ rows ∧
      (∀ f ∈ Entity.especie.listedFields, r.get f = jaguarRequest.body.get f) ∧
      (Entity.especie = .imagen → r.get "id_avistamiento" = some "0") :=
  create_then_list sampleEnv sampleDb .especie "0" jaguarRequest
    ⟨some "Bearer aaa.bbb.ccc", [], none⟩ rfl (fun _ => ⟨sampleClaims, by rfl⟩)

/-! ## The credential column -/

/-- A `SET` clause changes the value under a key the row has, and adds no key. -/
theorem lookup_assign (sets : List (String × Val)) (r : Row) (c : String) :
    List.lookup c (r.assign sets) = (List.lookup c r).map fun v => (List.lookup c sets).getD v := by
  induction r with
  | nil => rfl
  | cons kv r ih =>
    obtain ⟨k, v⟩ := kv
    have ih1 : List.lookup c (List.map (fun cv => (cv.1, (List.lookup cv.1 sets).getD cv.2)) r) =
        (List.lookup c r).map fun v => (List.lookup c sets).getD v := ih
    by_cases hck : c = k
    · subst hck
      simp [Row.assign, List.lookup]
    · have hb : (c == k) = false := by simp [hck]
      simp [Row.assign, List.lookup, hb, ih1]

/-- Blanking the credential changes no other column. -/
theorem lookup_eraseCredential (r : Row) (c : String) (hc : c ≠ "contraseña") :
    List.lookup c (eraseCredential r) = List.lookup c r := by
  have hb : (c == "contraseña") = false := by simp [hc]
  rw [eraseCredential, lookup_assign]
  simp [List.lookup, hb]

/-- None of the returned user columns is the credential. -/
theorem ne_credential_of_public (c : String) (h : c ∈ usuarioPublic) : c ≠ "contraseña" := by
  simp only [usuarioPublic, List.mem_cons, List.mem_singleton, List.not_mem_nil, or_false] at h
  rcases h with rfl | rfl | rfl | rfl <;> decide

/-- The public projection of a user row does not depend on its credential. -/
theorem project_eraseCredential (r : Row) :
    (eraseCredential r).project (some usuarioPublic) = r.project (some usuarioPublic) := by
  simp only [Row.project]
  apply List.map_congr_left
  intro c hc
  simp [Row.get, lookup_eraseCredential r c (ne_credential_of_public c hc)]

/-- The public projection of an updated user row does not depend on its old credential. -/
theorem project_assign_eraseCredential (sets : List (String × Val)) (r : Row) :
    ((eraseCredential r).assign sets).project (some usuarioPublic) =
      (r.assign sets).project (some usuarioPublic) := by
  simp only [Row.project]
  apply List.map_congr_left
  intro c hc
  simp [Row.get, lookup_assign, lookup_eraseCredential r c (ne_credential_of_public c hc)]

/-- The test `id = v` does not depend on the credential. -/
theorem satisfies_id_eraseCredential (r : Row) (v : Val) :
    (eraseCredential r).satisfies [("id", v)] = r.satisfies [("id", v)] := by
  simp [Row.satisfies, Row.get, lookup_eraseCredential r "id" (by decide)]

/-- The rows an update of a user returns are a function of the rows with their
credentials blanked. -/
theorem update_rows_eraseCredential (sets : List (String × Val)) (v : Val) (rs : List Row) :
    ((rs.filter fun r => r.satisfies [("id", v)]).map fun r =>
        (r.assign sets).project (some usuarioPublic)) =
      (((rs.map eraseCredential).filter fun r => r.satisfies [("id", v)]).map fun r =>
        (r.assign sets).project (some usuarioPublic)) := by
  induction rs with
  | nil => rfl
  | cons r rs ih =>
    cases h : r.satisfies [("id", v)]
    · have h1 : (eraseCredential r).satisfies [("id", v)] = false := by
        rw [satisfies_id_eraseCredential]; exact h
      simp only [List.map_cons, List.filter_cons, h, h1, Bool.false_eq_true, if_false]
      exact ih
    · have h1 : (eraseCredential r).satisfies [("id", v)] = true := by
        rw [satisfies_id_eraseCredential]; exact h
      simp only [List.map_cons, List.filter_cons, h, h1, if_true, ih,
        project_assign_eraseCredential]

/-- The rows the user list returns are a function of the rows with their
credentials blanked. -/
theorem list_rows_eraseCredential (rs : List Row) :
    rs.map (Row.project (some usuarioPublic)) =
      (rs.map eraseCredential).map (Row.project (some usuarioPublic)) := by
  rw [List.map_map]
  apply List.map_congr_left
  intro r _
  exact (project_eraseCredential r).symm

/-- The columns of a projected row are the projection list. -/
theorem keys_project (cols : List String) (r : Row) :
    (r.project (some cols)).map Prod.fst = cols := by
  induction cols with
  | nil => rfl
  | cons c cs ih =>
    simp only [Row.project, List.map_cons, List.cons.injEq, true_and] at ih ⊢
    exact ih

/-- C8: on `GET /api/usuarios`, `POST /api/usuarios` and `PUT /api/usuarios/:id`
two stores that differ only in the values of the users' credentials are answered
alike, for every environment and request, and every row of the answer has
exactly the columns id, nombre, email and fecha_registro. -/
theorem usuario_routes_hide_credential (env : Env) (a b : Db) (req : Request) (id : String)
    (r : Route) (hr : r = .getUsuarios ∨ r = .postUsuarios ∨ r = .putUsuario id)
    (hab : a.sameButCredentials b) :
    (serve env a r req).resp = (serve env b r req).resp ∧
    ∀ row ∈ (serve env a r req).resp.body.rowsOf, row.map Prod.fst = usuarioPublic := by
  obtain ⟨hrows, hid, -, -, -, hnow⟩ := hab
  rcases hr with rfl | rfl | rfl
  · cases hdb : env.dbError with
    | some e =>
      simp [serve, Route.gated, handlerOf, getUsuarios, poolQuery, hdb, Outcome.reply,
        Response.statusJson, Body.rowsOf]
    | none =>
      have ha : ∀ d : Db, (serve env d .getUsuarios req).resp =
          ⟨200, .rows (d.usuarios.rows.map (Row.project (some usuarioPublic)))⟩ := by
        intro d
        simp [serve, Route.gated, handlerOf, getUsuarios, poolQuery, hdb, Db.exec, Db.table,
          filter_satisfies_nil, Outcome.reply, Response.json]
      rw [ha a, ha b]
      refine ⟨?_, ?_⟩
      · rw [list_rows_eraseCredential a.usuarios.rows, hrows,
          ← list_rows_eraseCredential b.usuarios.rows]
      · intro row hrow
        simp only [Body.rowsOf, List.mem_map] at hrow
        obtain ⟨u, -, rfl⟩ := hrow
        exact keys_project usuarioPublic u
  · cases hdb : env.dbError with
    | some e =>
      simp [serve, Route.gated, handlerOf, postUsuarios, poolQuery, hdb, Outcome.reply,
        Response.statusJson, Body.rowsOf]
    | none =>
      have ha : ∀ d : Db, (serve env d .postUsuarios req).resp =
          ⟨200, .row (some ((newRow .usuarios d.usuarios.nextId d.now
            (bodyValues req usuarioFields)).project (some usuarioPublic)))⟩ := by
        intro d
        simp [serve, Route.gated, handlerOf, postUsuarios, poolQuery, hdb, Db.exec, Db.table,
          Outcome.reply, Response.json]
      rw [ha a, ha b, hid, hnow]
      refine ⟨rfl, ?_⟩
      intro row hrow
      simp only [Body.rowsOf, List.mem_singleton] at hrow
      subst hrow
      exact keys_project usuarioPublic _
  · cases hdb : env.dbError with
    | some e =>
      simp [serve, Route.gated, handlerOf, putUsuario, poolQuery, hdb, Outcome.reply,
        Response.statusJson, Body.rowsOf]
    | none =>
      have ha : ∀ d : Db, (serve env d (.putUsuario id) req).resp =
          ⟨200, .row (((d.usuarios.rows.filter fun r => r.satisfies [("id", some id)]).map
            fun r => (r.assign (bodyValues req usuarioFields)).project
              (some usuarioPublic)).head?)⟩ := by
        intro d
        simp [serve, Route.gated, handlerOf, putUsuario, poolQuery, hdb, Db.exec, Db.table,
          Outcome.reply, Response.json]
      rw [ha a, ha b]
      refine ⟨?_, ?_⟩
      · rw [update_rows_eraseCredential _ _ a.usuarios.rows, hrows,
          ← update_rows_eraseCredential _ _ b.usuarios.rows]
      · intro row hrow
        cases hl : ((a.usuarios.rows.filter fun r => r.satisfies [("id", some id)]).map
            fun r => (r.assign (bodyValues req usuarioFields)).project (some usuarioPublic)) with
        | nil => simp [hl, Body.rowsOf] at hrow
        | cons x xs =>
          have hx : x ∈ ((a.usuarios.rows.filter fun r => r.satisfies [("id", some id)]).map
              fun r => (r.assign (bodyValues req usuarioFields)).project
                (some usuarioPublic)) := by
            rw [hl]; exact List.mem_cons_self _ _
          simp only [hl, List.head?_cons, Body.rowsOf, List.mem_singleton] at hrow
          subst hrow
          rw [List.mem_map] at hx
          obtain ⟨u, -, rfl⟩ := hx
          exact keys_project usuarioPublic _

/-- C8 at the sample store and the same store with another credential for its
user: the user list is the same. -/
theorem usuario_routes_hide_credential_witness :
    (serve sampleEnv sampleDb .getUsuarios emptyRequest).resp =
      (serve sampleEnv sampleDbOtherCredential .getUsuarios emptyRequest).resp ∧
    ∀ row ∈ (serve sampleEnv sampleDb .getUsuarios emptyRequest).resp.body.rowsOf,
      row.map Prod.fst = usuarioPublic :=
  usuario_routes_hide_credential sampleEnv sampleDb sampleDbOtherCredential emptyRequest "1"
    .getUsuarios (Or.inl rfl) ⟨by decide, rfl, rfl, rfl, rfl, rfl⟩

end ApiDeteccion
